import Mathlib

/-!
Shallow embedding of the serializer/deserializer shim layer of
`confluent_kafka` (files `src/confluent_kafka/producer.py` and
`src/confluent_kafka/consumer.py`) together with theorems settling the
frozen claims about it.

Modelling choices:
* Python payload objects (`None`, bytes, str, int) are the inductive `PyVal`;
  Python `None` is `PyVal.none`.
* A codec hook (serializer/deserializer) is a function
  `String → PyVal → Except PyErr PyVal`; an exception raised inside the user
  function is the `.error` case.  A hook slot holding Python `None` is `Option.none`
  (Python truthiness of a function-or-None slot is exactly `Option.isSome`).
* Delivery callbacks are opaque tokens, modelled as `Option Nat`.
* The native core (`cimpl`, a C extension that is not part of the Python
  sources) is modelled as an oracle: `poll`'s fetch result and `consume`'s
  available batch are explicit parameters, and every interaction with the
  core is recorded in an event trace, so that "the native call never
  happens" is the provable absence of the corresponding trace event.
* `timeout` is a float in Python; no claim computes with it, so it is an
  uninterpreted `Int` passed through.
* Mutation of a `Message` in place (`set_key`/`set_value`) is modelled by
  explicit state passing, and each mutation is also recorded in the trace,
  so the order of mutations relative to codec invocations is observable
  even when an exception propagates.
-/

/-- Classes of Python exceptions relevant to the shim. -/
inductive PyErrKind where
  | notImplementedError
  | valueError
  /-- In Python 3, `raise x` where `x` is not a `BaseException` (e.g. a tuple)
  aborts with `TypeError: exceptions must derive from BaseException`. -/
  | typeError
  | serializationError
  /-- An arbitrary exception raised inside a user codec hook. -/
  | userError (code : Nat)
deriving DecidableEq

/-- A Python exception: a class together with its message. -/
structure PyErr where
  kind : PyErrKind
  msg : String
deriving DecidableEq

/-- Python payload values crossing the shim: `None`, byte strings, text, ints. -/
inductive PyVal where
  | none
  | bytes (bs : List Nat)
  | str (s : String)
  | int (n : Int)
deriving DecidableEq

/-- A codec hook: `key_serializer(topic, key)` and friends.  Raising inside
the user function is the `.error` case. -/
def Codec := String → PyVal → Except PyErr PyVal

/-- `confluent_kafka.cimpl.PARTITION_UA` (librdkafka `RD_KAFKA_PARTITION_UA`). -/
def PARTITION_UA : Int := -1

/-- A `Message` as produced by the native core (§6 of the design: `topic()`,
`partition()`, `key()`, `value()`, `error()`, `timestamp()`, `headers()`).
The `error` slot is `Option.none` for a genuine data message. -/
structure Message where
  topic : String
  partition : Int
  key : PyVal
  value : PyVal
  error : Option Nat
  timestamp : Int
  headers : Option (List (String × PyVal))
deriving DecidableEq

/-- `Message.set_key(v)`: in-place overwrite of the key slot. -/
def Message.set_key (m : Message) (k : PyVal) : Message := { m with key := k }

/-- `Message.set_value(v)`: in-place overwrite of the value slot. -/
def Message.set_value (m : Message) (v : PyVal) : Message := { m with value := v }

/-- Instance state of the producer shim: the two `__slots__`
`key_serializer` and `value_serializer` bound in `Producer.__init__`. -/
structure ProducerState where
  key_serializer : Option Codec
  value_serializer : Option Codec

/-- `Producer.__init__(conf, key_serializer, value_serializer, ...)`:
stores the two instance-scoped hooks (the rest goes to the native core). -/
def Producer.init (key_serializer value_serializer : Option Codec) : ProducerState :=
  { key_serializer := key_serializer, value_serializer := value_serializer }

/-- Observable events of one `Producer.produce` call. -/
inductive ProduceEvent where
  /-- Invocation of the resolved key serializer with `(topic, key)`. -/
  | keySerCall (topic : String) (key : PyVal)
  /-- Invocation of the resolved value serializer with `(topic, value)`. -/
  | valueSerCall (topic : String) (value : PyVal)
  /-- The delegated call `super(Producer, self).produce(topic, value, key,
  partition, on_delivery=on_delivery, timestamp=timestamp, headers=headers)`. -/
  | nativeProduce (topic : String) (value : PyVal) (key : PyVal) (partition : Int)
      (on_delivery : Option Nat) (timestamp : Int) (headers : Option (List (String × PyVal)))
deriving DecidableEq

/-- Result of one `Producer.produce` call: the outcome (`.error e` when a
Python exception propagates to the caller), the trace of codec invocations
and native calls, and the instance state after the call. -/
structure ProduceResult where
  outcome : Except PyErr Unit
  trace : List ProduceEvent
  self' : ProducerState

/-- Second half of `Producer.produce`: the source lines
`if not value_serializer: value_serializer = self.value_serializer`,
`if value_serializer: value = value_serializer(topic, value)`, and the
final delegation to the native `produce`.  `tr` is the trace accumulated by
the key-serialization stage. -/
def produceValueStage (self : ProducerState) (topic : String) (value : PyVal)
    (key : PyVal) (partition : Int) (on_delivery : Option Nat) (timestamp : Int)
    (headers : Option (List (String × PyVal))) (value_serializer : Option Codec)
    (tr : List ProduceEvent) : ProduceResult :=
  match (if value_serializer.isNone then self.value_serializer else value_serializer) with
  | some vs =>
    match vs topic value with
    | .error e => ⟨.error e, tr ++ [ProduceEvent.valueSerCall topic value], self⟩
    | .ok v =>
      ⟨.ok (), tr ++ [ProduceEvent.valueSerCall topic value,
        ProduceEvent.nativeProduce topic v key partition on_delivery timestamp headers], self⟩
  | none =>
      ⟨.ok (), tr ++
        [ProduceEvent.nativeProduce topic value key partition on_delivery timestamp headers], self⟩

/-- `Producer.produce(topic, value=None, key=None, partition=PARTITION_UA,
on_delivery=None, callback=None, timestamp=0, headers=None,
key_serializer=None, value_serializer=None)`, line by line:
the callback aliasing, then key-serializer resolution and application, then
the value stage (`produceValueStage`).  The instance is never assigned to,
so `self'` is `self` on every path. -/
def Producer.produce (self : ProducerState) (topic : String) (value : PyVal)
    (key : PyVal) (partition : Int) (on_delivery : Option Nat) (callback : Option Nat)
    (timestamp : Int) (headers : Option (List (String × PyVal)))
    (key_serializer : Option Codec) (value_serializer : Option Codec) : ProduceResult :=
  -- "# on_delivery is an alias for callback and take precedence"
  -- if callback and not on_delivery: on_delivery = callback
  let on_delivery := if callback.isSome && on_delivery.isNone then callback else on_delivery
  -- "# parameter overrides take precedence over instance functions"
  -- if not key_serializer: key_serializer = self.key_serializer
  match (if key_serializer.isNone then self.key_serializer else key_serializer) with
  | some ks =>
    -- if key_serializer: key = key_serializer(topic, key)
    match ks topic key with
    | .error e => ⟨.error e, [ProduceEvent.keySerCall topic key], self⟩
    | .ok k =>
      produceValueStage self topic value k partition on_delivery timestamp headers
        value_serializer [ProduceEvent.keySerCall topic key]
  | none =>
      produceValueStage self topic value key partition on_delivery timestamp headers
        value_serializer []

/-- The `on_delivery` arguments of the native `produce` calls in a trace:
the completion-callback values that reach the native core. -/
def onDeliverySlots (tr : List ProduceEvent) : List (Option Nat) :=
  tr.filterMap fun e => match e with
    | ProduceEvent.nativeProduce _ _ _ _ od _ _ => some od
    | _ => Option.none

/-- The `value` arguments of the native `produce` calls in a trace. -/
def producedValues (tr : List ProduceEvent) : List PyVal :=
  tr.filterMap fun e => match e with
    | ProduceEvent.nativeProduce _ v _ _ _ _ _ => some v
    | _ => Option.none

/-- The `key` arguments of the native `produce` calls in a trace. -/
def producedKeys (tr : List ProduceEvent) : List PyVal :=
  tr.filterMap fun e => match e with
    | ProduceEvent.nativeProduce _ _ k _ _ _ _ => some k
    | _ => Option.none

/-- Instance state of the consumer shim: the two `__slots__`
`key_deserializer` and `value_deserializer` bound in `Consumer.__init__`. -/
structure ConsumerState where
  key_deserializer : Option Codec
  value_deserializer : Option Codec

/-- `Consumer.__init__(conf, key_deserializer, value_deserializer, ...)`. -/
def Consumer.init (key_deserializer value_deserializer : Option Codec) : ConsumerState :=
  { key_deserializer := key_deserializer, value_deserializer := value_deserializer }

/-- Observable events of one `Consumer.poll` call. -/
inductive PollEvent where
  /-- The delegated call `super(Consumer, self).poll(timeout)`. -/
  | nativePoll (timeout : Int)
  /-- Invocation of the resolved key deserializer with `(topic, msg.key())`. -/
  | keyDeserCall (topic : String) (key : PyVal)
  /-- The in-place mutation `msg.set_key(...)`. -/
  | setKey (k : PyVal)
  /-- Invocation of the resolved value deserializer with `(topic, msg.value())`. -/
  | valueDeserCall (topic : String) (value : PyVal)
  /-- The in-place mutation `msg.set_value(...)`. -/
  | setValue (v : PyVal)
deriving DecidableEq

/-- Result of one `Consumer.poll` call: the outcome (`.ok` carries the
returned `Message`-or-`None`; `.error e` means the exception `e` propagates
to the caller), the event trace, and the instance state after the call. -/
structure PollResult where
  outcome : Except PyErr (Option Message)
  trace : List PollEvent
  self' : ConsumerState

/-- Second half of `Consumer.poll`: the source lines
`if not value_deserializer: value_deserializer = self.value_deserializer`,
`if value_deserializer: msg.set_value(value_deserializer(topic, msg.value()))`,
and `return msg`.  `msg` already carries the key mutation, `tr` the trace of
the key stage. -/
def pollValueStage (self : ConsumerState) (topic : String) (msg : Message)
    (value_deserializer : Option Codec) (tr : List PollEvent) : PollResult :=
  match (if value_deserializer.isNone then self.value_deserializer else value_deserializer) with
  | some vd =>
    match vd topic msg.value with
    | .error e => ⟨.error e, tr ++ [PollEvent.valueDeserCall topic msg.value], self⟩
    | .ok v => ⟨.ok (some (msg.set_value v)),
        tr ++ [PollEvent.valueDeserCall topic msg.value, PollEvent.setValue v], self⟩
  | none => ⟨.ok (some msg), tr, self⟩

/-- `Consumer.poll(timeout=-1.0, key_deserializer=None, value_deserializer=None)`.
`fetched` is the oracle for what `super(Consumer, self).poll(timeout)`
returns (`Option.none` models the `None`-on-timeout result). -/
def Consumer.poll (self : ConsumerState) (timeout : Int)
    (key_deserializer : Option Codec) (value_deserializer : Option Codec)
    (fetched : Option Message) : PollResult :=
  -- msg = super(Consumer, self).poll(timeout)
  -- if not msg or msg.error(): return msg
  match fetched with
  | Option.none => ⟨.ok Option.none, [PollEvent.nativePoll timeout], self⟩
  | some msg =>
    if msg.error.isSome then ⟨.ok (some msg), [PollEvent.nativePoll timeout], self⟩
    else
      -- topic = msg.topic()
      let topic := msg.topic
      -- "# parameter overrides take precedence over instance functions"
      -- if not key_deserializer: key_deserializer = self.key_deserializer
      match (if key_deserializer.isNone then self.key_deserializer else key_deserializer) with
      | some kd =>
        -- if key_deserializer: msg.set_key(key_deserializer(topic, msg.key()))
        match kd topic msg.key with
        | .error e =>
            ⟨.error e, [PollEvent.nativePoll timeout, PollEvent.keyDeserCall topic msg.key], self⟩
        | .ok k =>
            pollValueStage self topic (msg.set_key k) value_deserializer
              [PollEvent.nativePoll timeout, PollEvent.keyDeserCall topic msg.key,
               PollEvent.setKey k]
      | Option.none =>
            pollValueStage self topic msg value_deserializer [PollEvent.nativePoll timeout]

/-- Observable events of one `Consumer.consume` call. -/
inductive ConsumeEvent where
  /-- The delegated call `super(Consumer, self).consume(num_messages, timeout)`. -/
  | nativeConsume (num_messages : Int) (timeout : Int)
  /-- Network activity (the actual batch fetch) inside the native core. -/
  | networkFetch
deriving DecidableEq

/-- Modelled from the spec: the native core's batch fetch
(`cimpl.Consumer.consume`, a C extension not under `src/`).  Spec §4.2:
"`num_messages` must not exceed an implementation ceiling (one million in
the reference behavior); exceeding it fails with a `ValueError`-class
condition before any network activity"; otherwise it performs the network
fetch and returns the available messages unmodified. -/
def cimplConsume (num_messages : Int) (timeout : Int) (avail : List Message) :
    Except PyErr (List Message) × List ConsumeEvent :=
  if num_messages > 1000000 then
    (.error ⟨.valueError, "Maximum num_messages must not exceed 1000000"⟩, [])
  else
    (.ok avail, [ConsumeEvent.networkFetch])

/-- `Consumer.consume(num_messages=1, timeout=-1)`.  `avail` is the oracle
for what the native batch fetch would return.  The guard is the source line
`raise(NotImplementedError, "Batch consumption does not support the use of
deserializers")`: it raises the *tuple* `(NotImplementedError, message)`,
which under Python 3 semantics aborts with
`TypeError: exceptions must derive from BaseException`. -/
def Consumer.consume (self : ConsumerState) (num_messages : Int) (timeout : Int)
    (avail : List Message) : Except PyErr (List Message) × List ConsumeEvent :=
  -- "# Disable consume() method when serializers are in use."
  if self.key_deserializer.isSome || self.value_deserializer.isSome then
    (.error ⟨.typeError, "exceptions must derive from BaseException"⟩, [])
  else
    match cimplConsume num_messages timeout avail with
    | (r, tr) => (r, ConsumeEvent.nativeConsume num_messages timeout :: tr)

/-! ### Helper lemmas -/

/-- The source line `if callback and not on_delivery: on_delivery = callback`
resolves to `on_delivery` when supplied, else to `callback`. -/
theorem resolved_on_delivery (od cb : Option Nat) :
    (if cb.isSome && od.isNone then cb else od) = if od.isSome then od else cb := by
  cases od <;> cases cb <;> rfl

theorem onDeliverySlots_append (l1 l2 : List ProduceEvent) :
    onDeliverySlots (l1 ++ l2) = onDeliverySlots l1 ++ onDeliverySlots l2 := by
  simp [onDeliverySlots]

theorem produceValueStage_self' (self : ProducerState) (topic : String) (value key : PyVal)
    (partition : Int) (od : Option Nat) (ts : Int) (hdrs : Option (List (String × PyVal)))
    (vs : Option Codec) (tr : List ProduceEvent) :
    (produceValueStage self topic value key partition od ts hdrs vs tr).self' = self := by
  unfold produceValueStage
  split
  · split <;> rfl
  · rfl

/-- `Producer.produce` never assigns an instance attribute. -/
theorem produce_preserves_state (self : ProducerState) (topic : String) (value key : PyVal)
    (partition : Int) (od cb : Option Nat) (ts : Int)
    (hdrs : Option (List (String × PyVal))) (ks vs : Option Codec) :
    (Producer.produce self topic value key partition od cb ts hdrs ks vs).self' = self := by
  unfold Producer.produce
  dsimp only
  cases hks : (if ks.isNone then self.key_serializer else ks) with
  | none => exact produceValueStage_self' ..
  | some f =>
    dsimp only
    cases hk : f topic key with
    | error e => rfl
    | ok k => exact produceValueStage_self' ..

theorem pollValueStage_self' (self : ConsumerState) (topic : String) (msg : Message)
    (vd : Option Codec) (tr : List PollEvent) :
    (pollValueStage self topic msg vd tr).self' = self := by
  unfold pollValueStage
  split
  · split <;> rfl
  · rfl

/-- `Consumer.poll` never assigns an instance attribute. -/
theorem poll_preserves_state (self : ConsumerState) (t : Int) (kd vd : Option Codec)
    (fetched : Option Message) :
    (Consumer.poll self t kd vd fetched).self' = self := by
  unfold Consumer.poll
  split
  · rfl
  · split
    · rfl
    · dsimp only
      split
      · split
        · rfl
        · exact pollValueStage_self' ..
      · exact pollValueStage_self' ..

theorem onDeliverySlots_produceValueStage (self : ProducerState) (topic : String)
    (value key : PyVal) (partition : Int) (od : Option Nat) (ts : Int)
    (hdrs : Option (List (String × PyVal))) (vs : Option Codec) (tr : List ProduceEvent)
    (htr : onDeliverySlots tr = []) :
    onDeliverySlots (produceValueStage self topic value key partition od ts hdrs vs tr).trace =
      match (produceValueStage self topic value key partition od ts hdrs vs tr).outcome with
      | .ok _ => [od]
      | .error _ => [] := by
  unfold produceValueStage
  cases hvs : (if vs.isNone then self.value_serializer else vs) with
  | none =>
    dsimp only
    rw [onDeliverySlots_append, htr]
    simp [onDeliverySlots]
  | some f =>
    dsimp only
    cases hv : f topic value with
    | error e =>
      dsimp only
      rw [onDeliverySlots_append, htr]
      simp [onDeliverySlots]
    | ok w =>
      dsimp only
      rw [onDeliverySlots_append, htr]
      simp [onDeliverySlots]

/-! ### Claims -/

/-- C1 (code bug): with an instance-scoped key deserializer configured,
`consume(1, -1)` fails immediately and the native batch fetch is never
invoked (the event trace is empty) — but the condition raised is a
`TypeError`, not a `NotImplementedError`: the source raises the *tuple*
`(NotImplementedError, message)`, which Python 3 rejects with
`TypeError: exceptions must derive from BaseException`. -/
theorem consume_guard_raises_typeError_not_notImplementedError :
    (Consumer.consume (Consumer.init (some fun _ k => .ok k) Option.none) 1 (-1) []).1 =
        .error ⟨.typeError, "exceptions must derive from BaseException"⟩ ∧
    (Consumer.consume (Consumer.init (some fun _ k => .ok k) Option.none) 1 (-1) []).2 = [] ∧
    PyErrKind.typeError ≠ PyErrKind.notImplementedError :=
  ⟨rfl, rfl, by decide⟩

/-- C2: the completion callbacks reaching the native core in a `produce`
call: exactly one per native call (exactly one native call on success, none
when a serializer raises), and its value is `on_delivery` when supplied
(in particular when both are supplied), else `callback`. -/
theorem produce_callback_aliasing (self : ProducerState) (topic : String)
    (value key : PyVal) (partition : Int) (on_delivery callback : Option Nat)
    (timestamp : Int) (headers : Option (List (String × PyVal)))
    (key_serializer value_serializer : Option Codec) :
    onDeliverySlots (Producer.produce self topic value key partition on_delivery callback
        timestamp headers key_serializer value_serializer).trace =
      match (Producer.produce self topic value key partition on_delivery callback
        timestamp headers key_serializer value_serializer).outcome with
      | .ok _ => [if on_delivery.isSome then on_delivery else callback]
      | .error _ => [] := by
  rw [← resolved_on_delivery on_delivery callback]
  unfold Producer.produce
  dsimp only
  cases hks : (if key_serializer.isNone then self.key_serializer else key_serializer) with
  | none =>
    exact onDeliverySlots_produceValueStage self topic value key partition _ timestamp headers
      value_serializer [] (by simp [onDeliverySlots])
  | some f =>
    dsimp only
    cases hk : f topic key with
    | error e => simp [onDeliverySlots]
    | ok k =>
      exact onDeliverySlots_produceValueStage self topic value k partition _ timestamp headers
        value_serializer [ProduceEvent.keySerCall topic key] (by simp [onDeliverySlots])

/-- C4: when the native fetch returns `None` (timeout) or a message whose
`error()` is non-null, `poll` returns that result unmodified and the trace
contains nothing beyond the native fetch itself: no deserializer is
invoked and no slot is mutated. -/
theorem poll_null_or_error_unmodified (self : ConsumerState) (t : Int)
    (kd vd : Option Codec) (fetched : Option Message)
    (h : fetched = Option.none ∨ ∃ m, fetched = some m ∧ m.error.isSome) :
    (Consumer.poll self t kd vd fetched).outcome = .ok fetched ∧
    (Consumer.poll self t kd vd fetched).trace = [PollEvent.nativePoll t] := by
  rcases h with rfl | ⟨m, rfl, hm⟩
  · exact ⟨rfl, rfl⟩
  · constructor <;> simp [Consumer.poll, hm]

theorem poll_null_or_error_unmodified_witness :
    (Consumer.poll (Consumer.init Option.none Option.none) 0 Option.none Option.none
        Option.none).outcome = .ok Option.none ∧
    (Consumer.poll (Consumer.init Option.none Option.none) 0 Option.none Option.none
        Option.none).trace = [PollEvent.nativePoll 0] :=
  poll_null_or_error_unmodified (Consumer.init Option.none Option.none) 0 Option.none
    Option.none Option.none (Or.inl rfl)

/-- C5: on a data message (`error()` null) with resolved deserializers,
`poll` applies the key deserializer to `(topic, key)` and the value
deserializer to `(topic, value)`, writes both results back in place
(`set_key` then `set_value`), and the returned message differs from the
fetched one in the `key` and `value` slots only — `error`, `topic`,
`partition`, `timestamp` and `headers` are untouched. -/
theorem poll_data_message_in_place (self : ConsumerState) (t : Int) (m : Message)
    (kdArg vdArg : Option Codec) (kd vd : Codec) (k v : PyVal)
    (he : m.error = Option.none)
    (hkr : (if kdArg.isNone then self.key_deserializer else kdArg) = some kd)
    (hvr : (if vdArg.isNone then self.value_deserializer else vdArg) = some vd)
    (hk : kd m.topic m.key = .ok k) (hv : vd m.topic m.value = .ok v) :
    (Consumer.poll self t kdArg vdArg (some m)).outcome =
      .ok (some { m with key := k, value := v }) ∧
    (Consumer.poll self t kdArg vdArg (some m)).trace =
      [PollEvent.nativePoll t, PollEvent.keyDeserCall m.topic m.key, PollEvent.setKey k,
       PollEvent.valueDeserCall m.topic m.value, PollEvent.setValue v] := by
  constructor <;>
    simp [Consumer.poll, pollValueStage, he, hkr, hvr, hk, hv, Message.set_key,
      Message.set_value]

theorem poll_data_message_in_place_witness :
    (Consumer.poll (Consumer.init Option.none Option.none) 7
        (some fun _ _ => .ok (PyVal.str "abc")) (some fun _ _ => .ok (PyVal.int 42))
        (some ⟨"t", 0, PyVal.bytes [97, 98, 99], PyVal.bytes [52, 50], Option.none, 0,
          Option.none⟩)).outcome =
      .ok (some ⟨"t", 0, PyVal.str "abc", PyVal.int 42, Option.none, 0, Option.none⟩) ∧
    (Consumer.poll (Consumer.init Option.none Option.none) 7
        (some fun _ _ => .ok (PyVal.str "abc")) (some fun _ _ => .ok (PyVal.int 42))
        (some ⟨"t", 0, PyVal.bytes [97, 98, 99], PyVal.bytes [52, 50], Option.none, 0,
          Option.none⟩)).trace =
      [PollEvent.nativePoll 7, PollEvent.keyDeserCall "t" (PyVal.bytes [97, 98, 99]),
       PollEvent.setKey (PyVal.str "abc"),
       PollEvent.valueDeserCall "t" (PyVal.bytes [52, 50]),
       PollEvent.setValue (PyVal.int 42)] :=
  poll_data_message_in_place (Consumer.init Option.none Option.none) 7
    ⟨"t", 0, PyVal.bytes [97, 98, 99], PyVal.bytes [52, 50], Option.none, 0, Option.none⟩
    (some fun _ _ => .ok (PyVal.str "abc")) (some fun _ _ => .ok (PyVal.int 42))
    (fun _ _ => .ok (PyVal.str "abc")) (fun _ _ => .ok (PyVal.int 42))
    (PyVal.str "abc") (PyVal.int 42) rfl rfl rfl rfl rfl

/-- C10: on a data message, the key deserializer runs and its result is
written back via `set_key` strictly before the value deserializer is
invoked; hence when the value deserializer raises, the exception propagates
to the caller and the trace shows the key slot already overwritten
(`setKey` precedes `valueDeserCall`, and no `setValue` occurs): `poll` is
not atomic with respect to codec errors. -/
theorem poll_value_deser_raises_after_set_key (self : ConsumerState) (t : Int) (m : Message)
    (kdArg vdArg : Option Codec) (kd vd : Codec) (k : PyVal) (e : PyErr)
    (he : m.error = Option.none)
    (hkr : (if kdArg.isNone then self.key_deserializer else kdArg) = some kd)
    (hvr : (if vdArg.isNone then self.value_deserializer else vdArg) = some vd)
    (hk : kd m.topic m.key = .ok k) (hv : vd m.topic m.value = .error e) :
    (Consumer.poll self t kdArg vdArg (some m)).outcome = .error e ∧
    (Consumer.poll self t kdArg vdArg (some m)).trace =
      [PollEvent.nativePoll t, PollEvent.keyDeserCall m.topic m.key, PollEvent.setKey k,
       PollEvent.valueDeserCall m.topic m.value] := by
  constructor <;>
    simp [Consumer.poll, pollValueStage, he, hkr, hvr, hk, hv, Message.set_key]

theorem poll_value_deser_raises_after_set_key_witness :
    (Consumer.poll (Consumer.init Option.none Option.none) 7
        (some fun _ _ => .ok (PyVal.str "abc"))
        (some fun _ _ => .error ⟨.userError 3, "boom"⟩)
        (some ⟨"t", 0, PyVal.bytes [97, 98, 99], PyVal.bytes [52, 50], Option.none, 0,
          Option.none⟩)).outcome = .error ⟨.userError 3, "boom"⟩ ∧
    (Consumer.poll (Consumer.init Option.none Option.none) 7
        (some fun _ _ => .ok (PyVal.str "abc"))
        (some fun _ _ => .error ⟨.userError 3, "boom"⟩)
        (some ⟨"t", 0, PyVal.bytes [97, 98, 99], PyVal.bytes [52, 50], Option.none, 0,
          Option.none⟩)).trace =
      [PollEvent.nativePoll 7, PollEvent.keyDeserCall "t" (PyVal.bytes [97, 98, 99]),
       PollEvent.setKey (PyVal.str "abc"),
       PollEvent.valueDeserCall "t" (PyVal.bytes [52, 50])] :=
  poll_value_deser_raises_after_set_key (Consumer.init Option.none Option.none) 7
    ⟨"t", 0, PyVal.bytes [97, 98, 99], PyVal.bytes [52, 50], Option.none, 0, Option.none⟩
    (some fun _ _ => .ok (PyVal.str "abc")) (some fun _ _ => .error ⟨.userError 3, "boom"⟩)
    (fun _ _ => .ok (PyVal.str "abc")) (fun _ _ => .error ⟨.userError 3, "boom"⟩)
    (PyVal.str "abc") ⟨.userError 3, "boom"⟩ rfl rfl rfl rfl rfl

/-- C3: a call-scoped codec override is the hook applied for that call
(the value reaching the native core / the value written into the message is
the override's output, not the instance hook's), the call leaves the
instance-scoped hook fields unchanged, and a subsequent call with no
override uses the hook bound at construction — on both the producer
(`produce`) and the consumer (`poll`) side. -/
theorem call_scoped_override_shadows_and_preserves
    (g f : Codec) (topic : String) (v w1 w2 : PyVal) (partition ts : Int)
    (hf : f topic v = .ok w1) (hg : g topic v = .ok w2)
    (gd fd : Codec) (m : Message) (u1 u2 : PyVal) (t : Int)
    (hm : m.error = Option.none)
    (hfd : fd m.topic m.value = .ok u1) (hgd : gd m.topic m.value = .ok u2) :
    producedValues (Producer.produce (Producer.init Option.none (some g)) topic v PyVal.none
        partition Option.none Option.none ts Option.none Option.none (some f)).trace = [w1] ∧
    (Producer.produce (Producer.init Option.none (some g)) topic v PyVal.none partition
        Option.none Option.none ts Option.none Option.none (some f)).self'
      = Producer.init Option.none (some g) ∧
    producedValues (Producer.produce ((Producer.produce (Producer.init Option.none (some g))
        topic v PyVal.none partition Option.none Option.none ts Option.none Option.none
        (some f)).self') topic v PyVal.none partition Option.none Option.none ts Option.none
        Option.none Option.none).trace = [w2] ∧
    (Consumer.poll (Consumer.init Option.none (some gd)) t Option.none (some fd)
        (some m)).outcome = .ok (some (m.set_value u1)) ∧
    (Consumer.poll (Consumer.init Option.none (some gd)) t Option.none (some fd)
        (some m)).self' = Consumer.init Option.none (some gd) ∧
    (Consumer.poll ((Consumer.poll (Consumer.init Option.none (some gd)) t Option.none
        (some fd) (some m)).self') t Option.none Option.none (some m)).outcome
      = .ok (some (m.set_value u2)) := by
  refine ⟨?_, produce_preserves_state .., ?_, ?_, poll_preserves_state .., ?_⟩
  · simp [Producer.produce, produceValueStage, Producer.init, hf, producedValues]
  · rw [produce_preserves_state]
    simp [Producer.produce, produceValueStage, Producer.init, hg, producedValues]
  · simp [Consumer.poll, pollValueStage, Consumer.init, hm, hfd, Message.set_value]
  · rw [poll_preserves_state]
    simp [Consumer.poll, pollValueStage, Consumer.init, hm, hgd, Message.set_value]

theorem call_scoped_override_shadows_and_preserves_witness :
    producedValues (Producer.produce (Producer.init Option.none
        (some fun _ _ => .ok (PyVal.bytes [2]))) "t" (PyVal.int 1) PyVal.none PARTITION_UA
        Option.none Option.none 0 Option.none Option.none
        (some fun _ _ => .ok (PyVal.bytes [1]))).trace = [PyVal.bytes [1]] ∧
    (Producer.produce (Producer.init Option.none (some fun _ _ => .ok (PyVal.bytes [2]))) "t"
        (PyVal.int 1) PyVal.none PARTITION_UA Option.none Option.none 0 Option.none
        Option.none (some fun _ _ => .ok (PyVal.bytes [1]))).self'
      = Producer.init Option.none (some fun _ _ => .ok (PyVal.bytes [2])) ∧
    producedValues (Producer.produce ((Producer.produce (Producer.init Option.none
        (some fun _ _ => .ok (PyVal.bytes [2]))) "t" (PyVal.int 1) PyVal.none PARTITION_UA
        Option.none Option.none 0 Option.none Option.none
        (some fun _ _ => .ok (PyVal.bytes [1]))).self') "t" (PyVal.int 1) PyVal.none
        PARTITION_UA Option.none Option.none 0 Option.none Option.none
        Option.none).trace = [PyVal.bytes [2]] ∧
    (Consumer.poll (Consumer.init Option.none (some fun _ _ => .ok (PyVal.int 10))) 0
        Option.none (some fun _ _ => .ok (PyVal.int 20))
        (some ⟨"t", 0, PyVal.none, PyVal.bytes [5], Option.none, 0, Option.none⟩)).outcome
      = .ok (some (Message.set_value
          ⟨"t", 0, PyVal.none, PyVal.bytes [5], Option.none, 0, Option.none⟩
          (PyVal.int 20))) ∧
    (Consumer.poll (Consumer.init Option.none (some fun _ _ => .ok (PyVal.int 10))) 0
        Option.none (some fun _ _ => .ok (PyVal.int 20))
        (some ⟨"t", 0, PyVal.none, PyVal.bytes [5], Option.none, 0, Option.none⟩)).self'
      = Consumer.init Option.none (some fun _ _ => .ok (PyVal.int 10)) ∧
    (Consumer.poll ((Consumer.poll (Consumer.init Option.none
        (some fun _ _ => .ok (PyVal.int 10))) 0 Option.none
        (some fun _ _ => .ok (PyVal.int 20))
        (some ⟨"t", 0, PyVal.none, PyVal.bytes [5], Option.none, 0, Option.none⟩)).self') 0
        Option.none Option.none
        (some ⟨"t", 0, PyVal.none, PyVal.bytes [5], Option.none, 0, Option.none⟩)).outcome
      = .ok (some (Message.set_value
          ⟨"t", 0, PyVal.none, PyVal.bytes [5], Option.none, 0, Option.none⟩
          (PyVal.int 10))) :=
  call_scoped_override_shadows_and_preserves
    (fun _ _ => .ok (PyVal.bytes [2])) (fun _ _ => .ok (PyVal.bytes [1])) "t" (PyVal.int 1)
    (PyVal.bytes [1]) (PyVal.bytes [2]) PARTITION_UA 0 rfl rfl
    (fun _ _ => .ok (PyVal.int 10)) (fun _ _ => .ok (PyVal.int 20))
    ⟨"t", 0, PyVal.none, PyVal.bytes [5], Option.none, 0, Option.none⟩
    (PyVal.int 20) (PyVal.int 10) 0 rfl rfl rfl

/-- C6: when a resolved serializer raises, the exception propagates
synchronously to the caller and the native `produce` is never reached
(the trace holds only the codec invocations, no `nativeProduce`): the
message is not enqueued.  Stated for a raising key serializer (first two
conjuncts) and for a raising value serializer after a successful key
serializer (last two). -/
theorem produce_serializer_raises_not_enqueued (self : ProducerState) (topic : String)
    (value key : PyVal) (partition : Int) (od cb : Option Nat) (ts : Int)
    (hdrs : Option (List (String × PyVal))) (ks kOK vs : Codec) (vsArg : Option Codec)
    (e1 e2 : PyErr) (k0 : PyVal)
    (hk : ks topic key = .error e1)
    (hok : kOK topic key = .ok k0)
    (hv : vs topic value = .error e2) :
    (Producer.produce self topic value key partition od cb ts hdrs (some ks) vsArg).outcome
        = .error e1 ∧
    (Producer.produce self topic value key partition od cb ts hdrs (some ks) vsArg).trace
        = [ProduceEvent.keySerCall topic key] ∧
    (Producer.produce self topic value key partition od cb ts hdrs (some kOK)
        (some vs)).outcome = .error e2 ∧
    (Producer.produce self topic value key partition od cb ts hdrs (some kOK)
        (some vs)).trace
        = [ProduceEvent.keySerCall topic key, ProduceEvent.valueSerCall topic value] := by
  refine ⟨?_, ?_, ?_, ?_⟩ <;> simp [Producer.produce, produceValueStage, hk, hok, hv]

theorem produce_serializer_raises_not_enqueued_witness :
    (Producer.produce (Producer.init Option.none Option.none) "t" (PyVal.int 7)
        (PyVal.int 8) PARTITION_UA Option.none Option.none 0 Option.none
        (some fun _ _ => .error ⟨.userError 1, "key boom"⟩) Option.none).outcome
        = .error ⟨.userError 1, "key boom"⟩ ∧
    (Producer.produce (Producer.init Option.none Option.none) "t" (PyVal.int 7)
        (PyVal.int 8) PARTITION_UA Option.none Option.none 0 Option.none
        (some fun _ _ => .error ⟨.userError 1, "key boom"⟩) Option.none).trace
        = [ProduceEvent.keySerCall "t" (PyVal.int 8)] ∧
    (Producer.produce (Producer.init Option.none Option.none) "t" (PyVal.int 7)
        (PyVal.int 8) PARTITION_UA Option.none Option.none 0 Option.none
        (some fun _ _ => .ok (PyVal.bytes [9]))
        (some fun _ _ => .error ⟨.userError 2, "value boom"⟩)).outcome
        = .error ⟨.userError 2, "value boom"⟩ ∧
    (Producer.produce (Producer.init Option.none Option.none) "t" (PyVal.int 7)
        (PyVal.int 8) PARTITION_UA Option.none Option.none 0 Option.none
        (some fun _ _ => .ok (PyVal.bytes [9]))
        (some fun _ _ => .error ⟨.userError 2, "value boom"⟩)).trace
        = [ProduceEvent.keySerCall "t" (PyVal.int 8),
           ProduceEvent.valueSerCall "t" (PyVal.int 7)] :=
  produce_serializer_raises_not_enqueued (Producer.init Option.none Option.none) "t"
    (PyVal.int 7) (PyVal.int 8) PARTITION_UA Option.none Option.none 0 Option.none
    (fun _ _ => .error ⟨.userError 1, "key boom"⟩) (fun _ _ => .ok (PyVal.bytes [9]))
    (fun _ _ => .error ⟨.userError 2, "value boom"⟩) Option.none
    ⟨.userError 1, "key boom"⟩ ⟨.userError 2, "value boom"⟩ (PyVal.bytes [9])
    rfl rfl rfl

/-- C7: with both instance-scoped deserializers unset, `consume` with
`num_messages` above the one-million ceiling fails with a
`ValueError`-class condition and no network activity occurs (the batch
fetch inside the native core is never reached).  The ceiling check lives in
the native core's argument validation, modelled from the spec
(`cimplConsume`). -/
theorem consume_ceiling_no_network (n t : Int) (avail : List Message)
    (hn : n > 1000000) :
    (Consumer.consume (Consumer.init Option.none Option.none) n t avail).1 =
      .error ⟨.valueError, "Maximum num_messages must not exceed 1000000"⟩ ∧
    ConsumeEvent.networkFetch ∉
      (Consumer.consume (Consumer.init Option.none Option.none) n t avail).2 := by
  constructor <;> simp [Consumer.consume, cimplConsume, Consumer.init, hn]

theorem consume_ceiling_no_network_witness :
    (Consumer.consume (Consumer.init Option.none Option.none) 2000000 1 []).1 =
      .error ⟨.valueError, "Maximum num_messages must not exceed 1000000"⟩ ∧
    ConsumeEvent.networkFetch ∉
      (Consumer.consume (Consumer.init Option.none Option.none) 2000000 1 []).2 :=
  consume_ceiling_no_network 2000000 1 [] (by decide)

/-- C8: round trip.  If serializer `S` and deserializer `D` are exact
inverses at `v` (`S topic v = .ok w` and `D topic w = .ok v`), then a
`produce` with `S` hands exactly the wire value `w` to the native core,
and a `poll` that fetches a data message carrying `w` with `D` resolved
returns `v` in the value slot. -/
theorem produce_poll_roundtrip (topic : String) (v w : PyVal) (S D : Codec)
    (partition ts mpart mts : Int) (mk : PyVal)
    (mh : Option (List (String × PyVal))) (t : Int)
    (hS : S topic v = .ok w) (hD : D topic w = .ok v) :
    producedValues (Producer.produce (Producer.init Option.none Option.none) topic v
        PyVal.none partition Option.none Option.none ts Option.none Option.none
        (some S)).trace = [w] ∧
    (Consumer.poll (Consumer.init Option.none Option.none) t Option.none (some D)
        (some ⟨topic, mpart, mk, w, Option.none, mts, mh⟩)).outcome =
      .ok (some ⟨topic, mpart, mk, v, Option.none, mts, mh⟩) := by
  constructor
  · simp [Producer.produce, produceValueStage, Producer.init, hS, producedValues]
  · simp [Consumer.poll, pollValueStage, Consumer.init, hD, Message.set_value]

theorem produce_poll_roundtrip_witness :
    producedValues (Producer.produce (Producer.init Option.none Option.none) "t"
        (PyVal.int 42) PyVal.none PARTITION_UA Option.none Option.none 0 Option.none
        Option.none (some fun _ _ => .ok (PyVal.str "42"))).trace = [PyVal.str "42"] ∧
    (Consumer.poll (Consumer.init Option.none Option.none) 0 Option.none
        (some fun _ _ => .ok (PyVal.int 42))
        (some ⟨"t", 3, PyVal.none, PyVal.str "42", Option.none, 5, Option.none⟩)).outcome =
      .ok (some ⟨"t", 3, PyVal.none, PyVal.int 42, Option.none, 5, Option.none⟩) :=
  produce_poll_roundtrip "t" (PyVal.int 42) (PyVal.str "42")
    (fun _ _ => .ok (PyVal.str "42")) (fun _ _ => .ok (PyVal.int 42))
    PARTITION_UA 0 3 5 PyVal.none Option.none 0 rfl rfl

/-- C9: with a resolved key serializer and a resolved value serializer and
both payloads `None`, each serializer is still invoked with
`(topic, None)` — the trace records both invocations at `PyVal.none` — and
their results are exactly what reaches the native core: there is no
null-check short-circuit on the producer side. -/
theorem produce_serializers_applied_to_null (self : ProducerState) (topic : String)
    (partition : Int) (od cb : Option Nat) (ts : Int)
    (hdrs : Option (List (String × PyVal))) (ks vs : Codec) (wk wv : PyVal)
    (hk : ks topic PyVal.none = .ok wk) (hv : vs topic PyVal.none = .ok wv) :
    (Producer.produce self topic PyVal.none PyVal.none partition od cb ts hdrs
        (some ks) (some vs)).outcome = .ok () ∧
    (Producer.produce self topic PyVal.none PyVal.none partition od cb ts hdrs
        (some ks) (some vs)).trace =
      [ProduceEvent.keySerCall topic PyVal.none, ProduceEvent.valueSerCall topic PyVal.none,
       ProduceEvent.nativeProduce topic wv wk partition
         (if cb.isSome && od.isNone then cb else od) ts hdrs] := by
  constructor <;> simp [Producer.produce, produceValueStage, hk, hv]

theorem produce_serializers_applied_to_null_witness :
    (Producer.produce (Producer.init Option.none Option.none) "t" PyVal.none PyVal.none
        PARTITION_UA Option.none Option.none 0 Option.none
        (some fun _ _ => .ok (PyVal.bytes [0]))
        (some fun _ _ => .ok (PyVal.bytes [1]))).outcome = .ok () ∧
    (Producer.produce (Producer.init Option.none Option.none) "t" PyVal.none PyVal.none
        PARTITION_UA Option.none Option.none 0 Option.none
        (some fun _ _ => .ok (PyVal.bytes [0]))
        (some fun _ _ => .ok (PyVal.bytes [1]))).trace =
      [ProduceEvent.keySerCall "t" PyVal.none, ProduceEvent.valueSerCall "t" PyVal.none,
       ProduceEvent.nativeProduce "t" (PyVal.bytes [1]) (PyVal.bytes [0]) PARTITION_UA
         (if (Option.none : Option Nat).isSome && (Option.none : Option Nat).isNone
          then (Option.none : Option Nat) else (Option.none : Option Nat)) 0
         Option.none] :=
  produce_serializers_applied_to_null (Producer.init Option.none Option.none) "t"
    PARTITION_UA Option.none Option.none 0 Option.none
    (fun _ _ => .ok (PyVal.bytes [0])) (fun _ _ => .ok (PyVal.bytes [1]))
    (PyVal.bytes [0]) (PyVal.bytes [1]) rfl rfl
